import Mathlib

/-!
Shallow embedding of the wallet backend's core (Panoskonis/wallet):
the transaction-type and category vocabulary, monetary-amount
normalization, the dynamic WHERE-clause query builder, row mapping, the
filtered fetch, the aggregation, and the HTTP handlers that wrap them.
Monetary `Decimal` values are modelled as exact rationals; `Uuid` as
strings; timestamps as integers.  Storage is an oracle mapping a built
query to rows.
-/

namespace Wallet

/-- models.rs `TransactionType`: the closed kind vocabulary. -/
inductive TransactionType where
  | Expense
  | Income
deriving DecidableEq, Repr

/-- models.rs `impl ToString for TransactionType`. -/
def TransactionType.toStr : TransactionType → String
  | .Expense => "Expense"
  | .Income => "Income"

/-- models.rs `impl FromStr for TransactionType`: exact, case-sensitive
match; anything else is an error carrying the raw value. -/
def TransactionType.fromStr (s : String) : Except String TransactionType :=
  if s = "Expense" then .ok .Expense
  else if s = "Income" then .ok .Income
  else .error ("Invalid transaction type: " ++ s)

/-- models.rs `TransactionCategory`: the closed category vocabulary. -/
inductive TransactionCategory where
  | Groceries
  | Restaurant
  | Housing
  | Holidays
  | Shopping
  | Entertainment
  | Other
deriving DecidableEq, Repr

/-- models.rs `impl ToString for TransactionCategory`. -/
def TransactionCategory.toStr : TransactionCategory → String
  | .Groceries => "Groceries"
  | .Restaurant => "Restaurant"
  | .Housing => "Housing"
  | .Holidays => "Holidays"
  | .Shopping => "Shopping"
  | .Entertainment => "Entertainment"
  | .Other => "Other"

/-- models.rs `impl FromStr for TransactionCategory`: exact, case-sensitive
match; anything else is an error carrying the raw value. -/
def TransactionCategory.fromStr (s : String) : Except String TransactionCategory :=
  if s = "Groceries" then .ok .Groceries
  else if s = "Restaurant" then .ok .Restaurant
  else if s = "Housing" then .ok .Housing
  else if s = "Holidays" then .ok .Holidays
  else if s = "Shopping" then .ok .Shopping
  else if s = "Entertainment" then .ok .Entertainment
  else if s = "Other" then .ok .Other
  else .error ("Invalid transaction category: " ++ s)

/-- The canonical label set of `TransactionType`. -/
def typeLabels : List String := ["Expense", "Income"]

/-- The canonical label set of `TransactionCategory`. -/
def categoryLabels : List String :=
  ["Groceries", "Restaurant", "Housing", "Holidays", "Shopping", "Entertainment", "Other"]

/-- models.rs `TransactionCreate` (creation-side record; its `amount`
field is an `f64` in the source — negation and absolute value, the only
operations applied to it, are exact on binary floats, so the value is
modelled as a rational). -/
structure TransactionCreate where
  user_id : String
  transaction_type : TransactionType
  amount : ℚ
  category : TransactionCategory
  description : String

/-- models.rs `TransactionCreate::new`: `category` defaults to `Other`,
`description` defaults to the empty string. -/
def TransactionCreate.new (user_id : String) (transaction_type : TransactionType)
    (amount : ℚ) (category : Option TransactionCategory) (description : Option String) :
    TransactionCreate :=
  { user_id := user_id
    transaction_type := transaction_type
    amount := amount
    category := category.getD .Other
    description := description.getD "" }

/-- queries.rs `create_transaction`, lines 90-93: the stored amount is the
sign-normalized form of the raw input amount, `Expense` mapped to
`(-1.0) * |amount|` and `Income` to `|amount|`. -/
def createTransactionAmount (t : TransactionCreate) : ℚ :=
  match t.transaction_type with
  | .Expense => (-1) * |t.amount|
  | .Income => |t.amount|

/-- A value bound into the parameterized query (sqlx `push_bind`): the
source binds uuids, canonical category strings, `TransactionType` values,
timestamps and decimal amounts. -/
inductive BindValue where
  | uuid (u : String)
  | text (s : String)
  | ttype (t : TransactionType)
  | timestamp (ts : Int)
  | decimal (q : ℚ)
deriving DecidableEq, Repr

/-- sqlx `QueryBuilder`: the accumulated SQL text and the ordered bound
parameters. -/
structure QueryBuilder where
  sql : String
  params : List BindValue
deriving DecidableEq, Repr

/-- `QueryBuilder::push`: appends raw SQL text. -/
def QueryBuilder.push (q : QueryBuilder) (s : String) : QueryBuilder :=
  { q with sql := q.sql ++ s }

/-- `QueryBuilder::push_bind` for Postgres: appends the positional
placeholder for the next parameter to the SQL text and the value to the
ordered parameter list. -/
def QueryBuilder.pushBind (q : QueryBuilder) (v : BindValue) : QueryBuilder :=
  { sql := q.sql ++ "$" ++ Nat.repr (q.params.length + 1)
    params := q.params ++ [v] }

/-- queries.rs `push_where_or_and`: emits ` WHERE` for the first clause
and ` AND` afterwards, tracking whether a clause was already emitted. -/
def pushWhereOrAnd (q : QueryBuilder) (whereIsInserted : Bool) :
    QueryBuilder × Bool :=
  if !whereIsInserted then (q.push " WHERE", true)
  else (q.push " AND", whereIsInserted)

/-- One `if let Some(v) = filter` block of queries.rs `get_transactions`:
when the filter is present, emit the keyword, the clause fragment and the
bound placeholder; otherwise leave the builder untouched. -/
def stepFilter {α : Type} (st : QueryBuilder × Bool) (filter : Option α)
    (frag : String) (bindOf : α → BindValue) : QueryBuilder × Bool :=
  match filter with
  | some v =>
    let st2 := pushWhereOrAnd st.1 st.2
    ((st2.1.push frag).pushBind (bindOf v), st2.2)
  | none => st

/-- queries.rs `get_transactions`, lines 167-199: the dynamic query built
over the fixed base `SELECT * FROM transactions`, appending one clause per
present filter in the source's fixed textual order: user_id, category,
transaction_type, created_at >= (start), created_at <= (end),
amount >= (min), amount <= (max). -/
def getTransactionsBuild (user_id : Option String)
    (category : Option TransactionCategory)
    (transaction_type : Option TransactionType)
    (amount_min : Option ℚ) (amount_max : Option ℚ)
    (start_timestamp : Option Int) (end_timestamp : Option Int) :
    QueryBuilder :=
  let st : QueryBuilder × Bool := (⟨"SELECT * FROM transactions", []⟩, false)
  let st := stepFilter st user_id " user_id = " (fun u => BindValue.uuid u)
  let st := stepFilter st category " category = "
    (fun c => BindValue.text c.toStr)
  let st := stepFilter st transaction_type " transaction_type = "
    (fun t => BindValue.ttype t)
  let st := stepFilter st start_timestamp " created_at >= "
    (fun ts => BindValue.timestamp ts)
  let st := stepFilter st end_timestamp " created_at <= "
    (fun ts => BindValue.timestamp ts)
  let st := stepFilter st amount_min " amount >= " (fun q => BindValue.decimal q)
  let st := stepFilter st amount_max " amount <= " (fun q => BindValue.decimal q)
  st.1

/-- The clause fragment of each present filter, listed in the order the
source emits them (user_id, category, transaction_type, created_at >=,
created_at <=, amount >=, amount <=). -/
def codeOrderFrags (user_id : Option String)
    (category : Option TransactionCategory)
    (transaction_type : Option TransactionType)
    (amount_min : Option ℚ) (amount_max : Option ℚ)
    (start_timestamp : Option Int) (end_timestamp : Option Int) :
    List String :=
  (if user_id.isSome then [" user_id = "] else []) ++
  (if category.isSome then [" category = "] else []) ++
  (if transaction_type.isSome then [" transaction_type = "] else []) ++
  (if start_timestamp.isSome then [" created_at >= "] else []) ++
  (if end_timestamp.isSome then [" created_at <= "] else []) ++
  (if amount_min.isSome then [" amount >= "] else []) ++
  (if amount_max.isSome then [" amount <= "] else [])

/-- The clause fragments in the order the claim asserts (the spec's table
order): user_id, category, transaction_type, amount >=, amount <=,
created_at >=, created_at <=.  Written from the spec's words, for
comparison with the builder translated from the source. -/
def claimOrderFrags (user_id : Option String)
    (category : Option TransactionCategory)
    (transaction_type : Option TransactionType)
    (amount_min : Option ℚ) (amount_max : Option ℚ)
    (start_timestamp : Option Int) (end_timestamp : Option Int) :
    List String :=
  (if user_id.isSome then [" user_id = "] else []) ++
  (if category.isSome then [" category = "] else []) ++
  (if transaction_type.isSome then [" transaction_type = "] else []) ++
  (if amount_min.isSome then [" amount >= "] else []) ++
  (if amount_max.isSome then [" amount <= "] else []) ++
  (if start_timestamp.isSome then [" created_at >= "] else []) ++
  (if end_timestamp.isSome then [" created_at <= "] else [])

/-- Appends the 1-based positional placeholder to each clause fragment. -/
def numberFrags (frags : List String) : List String :=
  frags.mapIdx (fun i s => s ++ "$" ++ Nat.repr (i + 1))

/-- Joins comparison clauses: the first is introduced by ` WHERE`, every
later one by ` AND`; no clause yields the empty suffix. -/
def joinWhereAnd : List String → String
  | [] => ""
  | c :: cs => " WHERE" ++ c ++ (cs.map (fun s => " AND" ++ s)).foldl (· ++ ·) ""

/-- A raw column value of a storage row. -/
inductive SqlValue where
  | uuid (u : String)
  | text (s : String)
  | decimal (q : ℚ)
  | timestamp (ts : Int)
deriving DecidableEq, Repr

/-- A raw storage row (sqlx `PgRow`): named columns with runtime-typed
values. -/
def PgRow : Type := List (String × SqlValue)

/-- sqlx `try_get` at uuid type: the column must exist and hold a uuid. -/
def tryGetUuid (row : PgRow) (col : String) : Except String String :=
  match List.lookup col row with
  | some (.uuid u) => .ok u
  | some _ => .error ("column " ++ col ++ ": mismatched types")
  | none => .error ("no column found for name: " ++ col)

/-- sqlx `try_get` at string type. -/
def tryGetText (row : PgRow) (col : String) : Except String String :=
  match List.lookup col row with
  | some (.text s) => .ok s
  | some _ => .error ("column " ++ col ++ ": mismatched types")
  | none => .error ("no column found for name: " ++ col)

/-- sqlx `try_get` at `Decimal` type. -/
def tryGetDecimal (row : PgRow) (col : String) : Except String ℚ :=
  match List.lookup col row with
  | some (.decimal q) => .ok q
  | some _ => .error ("column " ++ col ++ ": mismatched types")
  | none => .error ("no column found for name: " ++ col)

/-- sqlx `try_get` at timestamp type. -/
def tryGetTimestamp (row : PgRow) (col : String) : Except String Int :=
  match List.lookup col row with
  | some (.timestamp ts) => .ok ts
  | some _ => .error ("column " ++ col ++ ": mismatched types")
  | none => .error ("no column found for name: " ++ col)

/-- sqlx `try_get` decoding the `transaction_type` column into the
`TransactionType` enum: the stored label is matched through the strict
parse. -/
def tryGetTransactionType (row : PgRow) (col : String) :
    Except String TransactionType :=
  match List.lookup col row with
  | some (.text s) => TransactionType.fromStr s
  | some _ => .error ("column " ++ col ++ ": mismatched types")
  | none => .error ("no column found for name: " ++ col)

/-- models.rs `TransactionQuery`: the typed transaction record built from
a row.  Its `amount` is the exact decimal the row mapper reads
(queries.rs line 129 annotates the column read as `Decimal`). -/
structure TransactionQuery where
  id : String
  user_id : String
  transaction_type : TransactionType
  amount : ℚ
  category : TransactionCategory
  description : String
  created_at : Int
  updated_at : Int
deriving DecidableEq, Repr

/-- queries.rs `map_row_to_transaction`: reads each column in the
source's order; the `category` string is parsed through the strict
vocabulary, a failure producing the descriptive error naming the raw
value; a `None` row is an error. -/
def mapRowToTransaction (row : Option PgRow) :
    Except String TransactionQuery :=
  match row with
  | some row => do
    let id ← tryGetUuid row "id"
    let user_id ← tryGetUuid row "user_id"
    let transaction_type ← tryGetTransactionType row "transaction_type"
    let category_string ← tryGetText row "category"
    let category ←
      match TransactionCategory.fromStr category_string with
      | .ok cat => Except.ok cat
      | .error e =>
        Except.error ("Could not convert " ++ category_string ++
          " to TransactionCategory enum: " ++ e)
    let description ← tryGetText row "description"
    let created_at ← tryGetTimestamp row "created_at"
    let last_updated_at ← tryGetTimestamp row "last_updated_at"
    let amount ← tryGetDecimal row "amount"
    .ok { id := id, user_id := user_id, transaction_type := transaction_type
          amount := amount, category := category, description := description
          created_at := created_at, updated_at := last_updated_at }
  | none => .error "Provided row is None"

/-- Rust `iterator.map(f).collect::<Result<Vec<_>>>()`: the first error
aborts the whole collection; otherwise every mapped element is kept in
order. -/
def collectResults {α β ε : Type} (l : List α) (f : α → Except ε β) :
    Except ε (List β) :=
  match l with
  | [] => .ok []
  | x :: xs => do
    let y ← f x
    let ys ← collectResults xs f
    .ok (y :: ys)

/-- The storage collaborator for transactions: executes a built
parameterized query and yields raw rows or a storage error. -/
def Pool : Type := QueryBuilder → Except String (List PgRow)

/-- queries.rs `get_transactions`: builds the dynamic query, executes it
against storage and maps every returned row, the collection failing as a
whole on the first bad row. -/
def getTransactions (pool : Pool) (user_id : Option String)
    (category : Option TransactionCategory)
    (transaction_type : Option TransactionType)
    (amount_min : Option ℚ) (amount_max : Option ℚ)
    (start_timestamp : Option Int) (end_timestamp : Option Int) :
    Except String (List TransactionQuery) := do
  let rows ← pool (getTransactionsBuild user_id category transaction_type
    amount_min amount_max start_timestamp end_timestamp)
  collectResults rows (fun r => mapRowToTransaction (some r))

/-- queries.rs `get_user_transaction_sum`: a mandatory user id, a single
delegated fetch with no amount bounds, and a running total starting from
`Decimal::from(0)` accumulated in row order. -/
def getUserTransactionSum (pool : Pool) (user_id : String)
    (category : Option TransactionCategory)
    (transaction_type : Option TransactionType)
    (start_timestamp : Option Int) (end_timestamp : Option Int) :
    Except String ℚ := do
  let transactions ← getTransactions pool (some user_id) category
    transaction_type none none start_timestamp end_timestamp
  .ok (transactions.foldl (fun total_sum tr => total_sum + tr.amount) 0)

/-- models.rs `UserQuery`: the stored user record, including the
credential hash in its `password` field. -/
structure UserQuery where
  id : String
  email : String
  name : String
  password : String
  created_at : Int
  updated_at : Int
deriving DecidableEq, Repr

/-- queries.rs `map_row_to_user`: reads the six user columns; a missing
row (`None`) is the generic error the source raises. -/
def mapRowToUser (row : Option PgRow) : Except String UserQuery :=
  match row with
  | some row => do
    let id ← tryGetUuid row "id"
    let email ← tryGetText row "email"
    let name ← tryGetText row "name"
    let password ← tryGetText row "password"
    let created_at ← tryGetTimestamp row "created_at"
    let updated_at ← tryGetTimestamp row "updated_at"
    .ok { id := id, email := email, name := name, password := password
          created_at := created_at, updated_at := updated_at }
  | none => .error "User could not be created from row"

/-- The storage collaborator for the by-email user lookup: yields the
optional matching row or a storage error. -/
def UserDb : Type := String → Except String (Option PgRow)

/-- queries.rs `get_user`: fetches the optional row for the email and
maps it. -/
def getUser (db : UserDb) (email : String) : Except String UserQuery := do
  let row ← db email
  mapRowToUser row

/-- queries.rs `get_all_users`: maps every fetched user row, failing as a
whole on the first bad row. -/
def getAllUsers (rowsResult : Except String (List PgRow)) :
    Except String (List UserQuery) := do
  let rows ← rowsResult
  collectResults rows (fun r => mapRowToUser (some r))

/-- The JSON values the handlers build (timestamps serialize through
their own node). -/
inductive Json where
  | str (s : String)
  | num (q : ℚ)
  | time (t : Int)
  | arr (items : List Json)
  | obj (fields : List (String × Json))

/-- The HTTP status codes the handlers produce. -/
inductive StatusCode where
  | badRequest
  | notFound
  | internalServerError
deriving DecidableEq, Repr

/-- The numeric value of a status code. -/
def StatusCode.code : StatusCode → ℕ
  | .badRequest => 400
  | .notFound => 404
  | .internalServerError => 500

/-- A client (4xx) error code. -/
def StatusCode.isClientError (s : StatusCode) : Bool :=
  400 ≤ s.code && s.code < 500

/-- serde's derived serialization of `UserQuery`: every declared field,
in declaration order — the password included. -/
def serializeUserQuery (u : UserQuery) : Json :=
  .obj [("id", .str u.id), ("email", .str u.email), ("name", .str u.name),
        ("password", .str u.password), ("created_at", .time u.created_at),
        ("updated_at", .time u.updated_at)]

/-- main.rs `get_user_handler`: any lookup error becomes HTTP 500; a
found user is answered with the explicit four-field projection. -/
def getUserHandler (db : UserDb) (email : String) :
    Except StatusCode Json :=
  match getUser db email with
  | .error _ => .error .internalServerError
  | .ok user =>
    .ok (.obj [("message", .str "User retrieved successfully"),
      ("user", .obj [("email", .str user.email), ("name", .str user.name),
        ("created_at", .time user.created_at),
        ("updated_at", .time user.updated_at)])])

/-- main.rs `get_users_handler`: any error becomes HTTP 500; the user
list is serialized whole through serde's derived serialization. -/
def getUsersHandler (rowsResult : Except String (List PgRow)) :
    Except StatusCode Json :=
  match getAllUsers rowsResult with
  | .error _ => .error .internalServerError
  | .ok users =>
    .ok (.obj [("message", .str "Users retrieved successfully"),
      ("users", .arr (users.map serializeUserQuery))])

/-- Modelled from the spec: `TransactionGetParameters` is referenced by
main.rs but its declaration is not among the repository's source files;
the spec's HTTP surface lists the optional query parameters user_id,
category, transaction_type, amount_min, amount_max, start_timestamp and
end_timestamp, which is exactly the field set main.rs reads from it. -/
structure TransactionGetParameters where
  user_id : Option String := none
  category : Option String := none
  transaction_type : Option String := none
  amount_min : Option ℚ := none
  amount_max : Option ℚ := none
  start_timestamp : Option Int := none
  end_timestamp : Option Int := none

/-- main.rs `get_amount_handler`, lines 241-282: a missing `user_id`
returns HTTP 500 before anything is fetched; an invalid enum parameter
returns HTTP 500; otherwise the sum is delegated with no amount bounds
(the handler never reads `amount_min` or `amount_max`). -/
def getAmountHandler (pool : Pool) (p : TransactionGetParameters) :
    Except StatusCode Json :=
  match p.user_id with
  | none => .error .internalServerError
  | some uid =>
    let catStep : Except StatusCode (Option TransactionCategory) :=
      match p.category with
      | some strr =>
        match TransactionCategory.fromStr strr with
        | .ok cat => .ok (some cat)
        | .error _ => .error .internalServerError
      | none => .ok none
    match catStep with
    | .error sc => .error sc
    | .ok category =>
      let typeStep : Except StatusCode (Option TransactionType) :=
        match p.transaction_type with
        | some strr =>
          match TransactionType.fromStr strr with
          | .ok t => .ok (some t)
          | .error _ => .error .internalServerError
        | none => .ok none
      match typeStep with
      | .error sc => .error sc
      | .ok transaction_type =>
        match getUserTransactionSum pool uid category transaction_type
            p.start_timestamp p.end_timestamp with
        | .error _ => .error .internalServerError
        | .ok money_sum =>
          .ok (.obj [("message",
              .str "Transactions sum retrieved successfully"),
            ("users", .num money_sum)])

/-- The two numeric representations the source uses for monetary
amounts: `f64` (binary float) and `Decimal` (exact decimal). -/
inductive AmountRepr where
  | f64
  | decimal
deriving DecidableEq, Repr

/-- The exact values each representation can hold: every finite binary64
float is a dyadic rational m / 2^k (this is even a superset of `f64`,
which further bounds m and k), and every `Decimal` is a scaled integer
m / 10^k. -/
def AmountRepr.representable : AmountRepr → ℚ → Prop
  | .f64, q => ∃ (m : ℤ) (k : ℕ), q = (m : ℚ) / 2 ^ k
  | .decimal, q => ∃ (m : ℤ) (k : ℕ), q = (m : ℚ) / 10 ^ k

/-- models.rs line 140: `TransactionCreate.amount: f64` — the
creation/normalization side holds the amount as a binary float. -/
def transactionCreateAmountRepr : AmountRepr := .f64

/-- queries.rs line 129: the row mapper reads the amount column at type
`Decimal`. -/
def rowAmountRepr : AmountRepr := .decimal

/-- queries.rs line 218: the aggregation accumulator starts from
`Decimal::from(0)`. -/
def sumAccumulatorRepr : AmountRepr := .decimal

/-- `Except` result that carries a value. -/
def exceptOk {ε α : Type} : Except ε α → Bool
  | .ok _ => true
  | .error _ => false

/-- Whether a bound parameter is an amount bound (a decimal comparison
value). -/
def BindValue.isAmountBound : BindValue → Bool
  | .decimal _ => true
  | _ => false

/-- A demo stored user row carrying a credential hash. -/
def demoUserRow : PgRow :=
  [("id", .uuid "7b"), ("email", .text "alice@example.com"),
   ("name", .text "Alice"), ("password", .text "argon2-hash"),
   ("created_at", .timestamp 0), ("updated_at", .timestamp 1)]

/-- The serde serialization of the demo user as the list handler emits
it. -/
def demoUserJsonFields : List (String × Json) :=
  [("id", .str "7b"), ("email", .str "alice@example.com"),
   ("name", .str "Alice"), ("password", .str "argon2-hash"),
   ("created_at", .time 0), ("updated_at", .time 1)]

/-- Reduction of an `Except` do-block over a success. -/
theorem exceptBind_ok {ε α β : Type} (a : α) (f : α → Except ε β) :
    (do let x ← (Except.ok a : Except ε α); f x) = f a := rfl

/-- Reduction of an `Except` do-block over a failure. -/
theorem exceptBind_error {ε α β : Type} (e : ε) (f : α → Except ε β) :
    (do let x ← (Except.error e : Except ε α); f x) =
      (Except.error e : Except ε β) := rfl

/-- `collectResults` succeeds exactly when every element maps
successfully. -/
theorem collectResults_isOk_iff {α β ε : Type} (f : α → Except ε β) :
    ∀ l : List α,
      exceptOk (collectResults l f) = true ↔ ∀ x ∈ l, exceptOk (f x) = true := by
  intro l
  induction l with
  | nil => simp [collectResults, exceptOk]
  | cons x xs ih =>
    simp only [collectResults]
    cases hx : f x with
    | error e =>
      simp [hx, exceptBind_error, exceptOk, List.forall_mem_cons]
    | ok y =>
      cases hxs : collectResults xs f with
      | error e2 =>
        rw [hxs] at ih
        simp [hx, hxs, exceptBind_ok, exceptBind_error, exceptOk,
          List.forall_mem_cons] at ih ⊢
        exact ih
      | ok ys =>
        rw [hxs] at ih
        simp [hx, hxs, exceptBind_ok, exceptOk, List.forall_mem_cons] at ih ⊢
        exact ih

/-- A successful `collectResults` maps the input pointwise, in order. -/
theorem collectResults_ok_forall2 {α β ε : Type} (f : α → Except ε β) :
    ∀ (l : List α) (ys : List β), collectResults l f = .ok ys →
      List.Forall₂ (fun x y => f x = .ok y) l ys := by
  intro l
  induction l with
  | nil =>
    intro ys h
    simp [collectResults] at h
    subst h
    exact List.Forall₂.nil
  | cons x xs ih =>
    intro ys h
    cases hx : f x with
    | error e => simp [collectResults, hx, exceptBind_error] at h
    | ok y =>
      cases hxs : collectResults xs f with
      | error e2 =>
        simp [collectResults, hx, hxs, exceptBind_ok, exceptBind_error] at h
      | ok ys2 =>
        simp [collectResults, hx, hxs, exceptBind_ok] at h
        subst h
        exact List.Forall₂.cons hx (ih ys2 hxs)

/-- Claim C1 (amended): the query builder starts from the fixed base
query over transactions and appends exactly one comparison clause per
present filter, introducing the first clause with WHERE and joining every
later clause with AND; the clause order is the source's fixed order
user_id, category, transaction_type, created_at >= (start_time),
created_at <= (end_time), amount >= (amount_min), amount <= (amount_max),
so the same inputs always produce byte-for-byte identical SQL. -/
theorem get_transactions_build_where_and_fixed_order
    (u : Option String) (c : Option TransactionCategory)
    (t : Option TransactionType) (a1 a2 : Option ℚ) (s e : Option Int) :
    (getTransactionsBuild u c t a1 a2 s e).sql =
      "SELECT * FROM transactions" ++
        joinWhereAnd (numberFrags (codeOrderFrags u c t a1 a2 s e)) := by
  rcases u with _ | u <;> rcases c with _ | c <;> rcases t with _ | t <;>
    rcases a1 with _ | a1 <;> rcases a2 with _ | a2 <;>
    rcases s with _ | s <;> rcases e with _ | e <;>
    (simp [getTransactionsBuild, stepFilter, pushWhereOrAnd,
      QueryBuilder.push, QueryBuilder.pushBind, codeOrderFrags,
      numberFrags, joinWhereAnd]; try rfl)

/-- Claim C1, counterexample: with amount_min and start_time both
present, the SQL the source builds differs from the SQL predicted by the
claim's clause order (amount bounds before timestamps): the source emits
the created_at clause first. -/
theorem get_transactions_build_claim_order_counterexample :
    (getTransactionsBuild none none none (some 1) none (some 0) none).sql ≠
      "SELECT * FROM transactions" ++
        joinWhereAnd (numberFrags
          (claimOrderFrags none none none (some 1) none (some 0) none)) := by
  decide

/-- Claim C2 (amended): for every aggregation request in which user_id is
absent from the filter set, the amount handler fails (with HTTP 500)
before invoking the sum operation, rather than silently computing a
full-table sum. -/
theorem get_amount_missing_user_id_errors
    (pool : Pool) (p : TransactionGetParameters) (h : p.user_id = none) :
    getAmountHandler pool p = .error .internalServerError := by
  simp [getAmountHandler, h]

/-- Claim C2, witness: the empty filter set is rejected. -/
theorem get_amount_missing_user_id_errors_witness :
    getAmountHandler (fun _ => .ok []) {} = .error .internalServerError :=
  get_amount_missing_user_id_errors (fun _ => .ok []) {} rfl

/-- Claim C2, counterexample: the failure the code produces for a missing
user_id is the server error 500 (INTERNAL_SERVER_ERROR), not a client
error such as the claimed MissingRequiredFilter. -/
theorem get_amount_missing_user_id_not_client_error :
    getAmountHandler (fun _ => .ok []) {} = .error .internalServerError ∧
    StatusCode.isClientError .internalServerError = false :=
  ⟨rfl, rfl⟩

/-- Claim C3 (code bug): the list endpoint serializes the full stored
user record, so the response for GET /api/users carries the password
(credential hash) field. -/
theorem get_users_handler_echoes_password :
    getUsersHandler (.ok [demoUserRow]) =
      .ok (.obj [("message", .str "Users retrieved successfully"),
        ("users", .arr [.obj demoUserJsonFields])]) ∧
    ("password", Json.str "argon2-hash") ∈ demoUserJsonFields := by
  constructor
  · rfl
  · simp [demoUserJsonFields]

/-- Claim C4: the stored amount is -|a| for Expense and +|a| for Income
whatever the raw sign, the sign invariant holds for every created
transaction, and the Expense normalization is the negation of the Income
normalization of the same raw amount. -/
theorem create_transaction_sign_normalization :
    ∀ t : TransactionCreate,
      (t.transaction_type = .Expense → createTransactionAmount t = -|t.amount|) ∧
      (t.transaction_type = .Income → createTransactionAmount t = |t.amount|) ∧
      (t.transaction_type = .Expense → createTransactionAmount t ≤ 0) ∧
      (t.transaction_type = .Income → 0 ≤ createTransactionAmount t) ∧
      (∀ s : TransactionCreate, s.amount = t.amount →
        t.transaction_type = .Expense → s.transaction_type = .Income →
        createTransactionAmount t = -createTransactionAmount s) := by
  intro t
  rcases t with ⟨u, k, a, c, d⟩
  cases k with
  | Expense =>
    refine ⟨fun _ => ?_, fun h => ?_, fun _ => ?_, fun h => ?_,
      fun s hs he hi => ?_⟩
    · simp [createTransactionAmount]
    · simp at h
    · simp [createTransactionAmount, neg_nonpos, abs_nonneg]
    · simp at h
    · rcases s with ⟨u2, k2, a2, c2, d2⟩
      simp only at hs hi
      subst hs
      subst hi
      simp [createTransactionAmount]
  | Income =>
    refine ⟨fun h => ?_, fun _ => ?_, fun h => ?_, fun _ => ?_,
      fun s hs he hi => ?_⟩
    · simp at h
    · simp [createTransactionAmount]
    · simp at h
    · simp [createTransactionAmount, abs_nonneg]
    · simp at he

/-- Claim C4, witness: the normalization at the concrete raw amount 30
(see the sign invariant at a created Expense). -/
theorem create_transaction_sign_normalization_witness :
    createTransactionAmount
      { user_id := "7b", transaction_type := .Expense, amount := 30,
        category := .Groceries, description := "" } = -30 := by
  have h := (create_transaction_sign_normalization
    { user_id := "7b", transaction_type := .Expense, amount := 30,
      category := .Groceries, description := "" }).1 rfl
  simpa using h

/-- Claim C5: the aggregation is the fold, with exact addition starting
from zero in row order, of the single delegated filtered fetch; a fetch
returning no rows yields exactly zero, not an error. -/
theorem get_user_transaction_sum_fold :
    ∀ (pool : Pool) (u : String) (c : Option TransactionCategory)
      (t : Option TransactionType) (s e : Option Int),
      getUserTransactionSum pool u c t s e =
        Except.map (fun l => l.foldl (fun acc tr => acc + tr.amount) 0)
          (getTransactions pool (some u) c t none none s e) ∧
      getUserTransactionSum (fun _ => .ok []) u c t s e = .ok 0 := by
  intro pool u c t s e
  refine ⟨?_, rfl⟩
  unfold getUserTransactionSum
  cases h : getTransactions pool (some u) c t none none s e <;> rfl

/-- Claim C6: the executor maps each returned row to a typed transaction;
the call succeeds exactly when every row maps, a single bad row failing
the whole call, and a successful call returns every row mapped in order —
no partial list, no dropped row. -/
theorem get_transactions_atomic_row_mapping :
    ∀ (rows : List PgRow) (u : Option String)
      (c : Option TransactionCategory) (t : Option TransactionType)
      (a1 a2 : Option ℚ) (s e : Option Int),
      (exceptOk (getTransactions (fun _ => .ok rows) u c t a1 a2 s e) = true ↔
        ∀ r ∈ rows, exceptOk (mapRowToTransaction (some r)) = true) ∧
      (∀ l, getTransactions (fun _ => .ok rows) u c t a1 a2 s e = .ok l →
        l.length = rows.length ∧
        List.Forall₂ (fun r tr => mapRowToTransaction (some r) = .ok tr) rows l) := by
  intro rows u c t a1 a2 s e
  have hred : getTransactions (fun _ => .ok rows) u c t a1 a2 s e =
      collectResults rows (fun r => mapRowToTransaction (some r)) := rfl
  rw [hred]
  refine ⟨collectResults_isOk_iff _ rows, fun l hl => ?_⟩
  have h2 := collectResults_ok_forall2 _ rows l hl
  exact ⟨(List.Forall₂.length_eq h2).symm, h2⟩

/-- Claim C7 (code bug): the pipeline does not use one exact-decimal type
uniformly — creation/normalization holds the amount as a binary float
(f64) while row mapping and the sum accumulator use the exact decimal,
and the decimal value 1/10 is exactly representable on the decimal side
but not in any binary-float grid. -/
theorem amount_pipeline_mixes_f64_and_decimal :
    transactionCreateAmountRepr = AmountRepr.f64 ∧
    rowAmountRepr = AmountRepr.decimal ∧
    sumAccumulatorRepr = AmountRepr.decimal ∧
    AmountRepr.representable rowAmountRepr (1 / 10) ∧
    ¬ AmountRepr.representable transactionCreateAmountRepr (1 / 10) := by
  refine ⟨rfl, rfl, rfl, ⟨1, 1, by norm_num⟩, ?_⟩
  rintro ⟨m, k, h⟩
  rw [div_eq_div_iff (by norm_num) (by positivity), one_mul] at h
  have h3 : (2:ℤ)^k = m * 10 := by exact_mod_cast h
  have h5 : (5:ℤ) ∣ 2^k := ⟨m * 2, by linarith⟩
  have hp : Prime (5:ℤ) := by norm_num
  have h2 := hp.dvd_of_dvd_pow h5
  norm_num at h2

/-- Claim C8 (code bug): an email with no matching row yields only the
generic mapping error, and the user handler maps it to 500, not to the
distinct not-found code 404. -/
theorem get_user_not_found_maps_to_500 :
    getUser (fun _ => .ok none) "missing@example.com" =
      .error "User could not be created from row" ∧
    getUserHandler (fun _ => .ok none) "missing@example.com" =
      .error .internalServerError ∧
    StatusCode.code .internalServerError = 500 ∧
    StatusCode.code .notFound = 404 :=
  ⟨rfl, rfl, rfl, rfl⟩

/-- Claim C9: serialize-then-parse is the identity on both closed
vocabularies, and parsing is a strict exact case-sensitive match — every
string outside the canonical label sets is rejected with an error naming
the raw value, never coerced to a default. -/
theorem vocabulary_roundtrip_and_strict_parse :
    (∀ k : TransactionType, TransactionType.fromStr k.toStr = .ok k) ∧
    (∀ c : TransactionCategory, TransactionCategory.fromStr c.toStr = .ok c) ∧
    (∀ s : String, s ∉ typeLabels →
      TransactionType.fromStr s = .error ("Invalid transaction type: " ++ s)) ∧
    (∀ s : String, s ∉ categoryLabels →
      TransactionCategory.fromStr s = .error ("Invalid transaction category: " ++ s)) := by
  refine ⟨?_, ?_, ?_, ?_⟩
  · intro k; cases k <;> rfl
  · intro c; cases c <;> rfl
  · intro s hs
    simp [typeLabels] at hs
    simp [TransactionType.fromStr, hs.1, hs.2]
  · intro s hs
    simp [categoryLabels] at hs
    simp [TransactionCategory.fromStr, hs.1, hs.2.1, hs.2.2.1, hs.2.2.2.1,
      hs.2.2.2.2.1, hs.2.2.2.2.2.1, hs.2.2.2.2.2.2]

/-- Claim C10: the amount handler's result never depends on amount_min or
amount_max from the inbound request, the sum delegates to the filtered
fetch with both amount bounds absent, and the query the sum executes
binds no amount-bound parameter. -/
theorem get_amount_ignores_amount_bounds :
    (∀ (pool : Pool) (p : TransactionGetParameters) (amin amax : Option ℚ),
      getAmountHandler pool
        { p with amount_min := amin, amount_max := amax } =
        getAmountHandler pool p) ∧
    (∀ (pool : Pool) (u : String) (c : Option TransactionCategory)
      (t : Option TransactionType) (s e : Option Int),
      getUserTransactionSum pool u c t s e =
        Except.map (fun l => l.foldl (fun acc tr => acc + tr.amount) 0)
          (getTransactions pool (some u) c t none none s e)) ∧
    (∀ (u : String) (c : Option TransactionCategory)
      (t : Option TransactionType) (s e : Option Int),
      ∀ v ∈ (getTransactionsBuild (some u) c t none none s e).params,
        BindValue.isAmountBound v = false) := by
  refine ⟨?_, ?_, ?_⟩
  · intro pool p amin amax
    rcases p with ⟨pu, pc, pt, pa1, pa2, ps, pe⟩
    rfl
  · intro pool u c t s e
    unfold getUserTransactionSum
    cases h : getTransactions pool (some u) c t none none s e <;> rfl
  · intro u c t s e
    rcases c with _ | c <;> rcases t with _ | t <;>
      rcases s with _ | s <;> rcases e with _ | e <;>
      simp [getTransactionsBuild, stepFilter, pushWhereOrAnd,
        QueryBuilder.push, QueryBuilder.pushBind, BindValue.isAmountBound]

end Wallet
